import Mathlib

set_option maxRecDepth 10000

/-!
A shallow embedding of the MCP filesystem demo server
(demos/epic6/demo_servers/filesystem_server.py) and proofs about its
dispatcher, tool handlers and path-safety guard.

Python strings are modelled as Lean strings; the handful of str and
posixpath primitives the server relies on (split, join, startswith,
normpath, abspath, expanduser, dirname) are re-implemented structurally
over character lists so that every definition evaluates inside the kernel.
The operating-system view (current working directory, file reads,
directory listings) is abstracted as a record of oracles; Python
exceptions raised out of a handler are modelled with Except.
-/

namespace FsServer

/-! ## Python string primitives -/

/-- Comparison of two characters by Unicode code point, as Python compares
characters inside string comparison. -/
def charLt (a b : Char) : Bool := Nat.blt a.toNat b.toNat

/-- Equality of two characters by code point. -/
def charEq (a b : Char) : Bool := a.toNat == b.toNat

/-- Python string comparison a < b: lexicographic on code points. -/
def charsLt : List Char → List Char → Bool
  | [], [] => false
  | [], _ :: _ => true
  | _ :: _, [] => false
  | a :: as, b :: bs => charLt a b || (charEq a b && charsLt as bs)

/-- Python string comparison a < b on whole strings. -/
def strLt (a b : String) : Bool := charsLt a.data b.data

/-- Python string comparison a <= b, expressed through the strict order. -/
def strLE (a b : String) : Bool := !(strLt b a)

/-- Python str.startswith: the second argument is a prefix of the first. -/
def strStartsWith (s pat : String) : Bool := List.isPrefixOf pat.data s.data

/-- Python str.endswith: the second argument is a suffix of the first. -/
def strEndsWith (s pat : String) : Bool := List.isSuffixOf pat.data s.data

/-- Python str.split(sep) for a one-character separator, over character
lists; the empty string splits to one empty component. -/
def splitChars (c : Char) : List Char → List (List Char)
  | [] => [[]]
  | x :: xs =>
    let r := splitChars c xs
    if charEq x c then [] :: r
    else
      match r with
      | [] => [[x]]
      | h :: t => (x :: h) :: t

/-- Python str.split(sep) on strings. -/
def pySplit (s : String) (c : Char) : List String := (splitChars c s.data).map String.mk

/-- Python sep.join(parts). -/
def strJoin (sep : String) : List String → String
  | [] => ""
  | [x] => x
  | x :: y :: xs => x ++ sep ++ strJoin sep (y :: xs)

/-- Python str.rstrip for the slash character, over character lists. -/
def rstripSlashes (cs : List Char) : List Char :=
  (cs.reverse.dropWhile (fun c => charEq c '/')).reverse

/-! ## posixpath primitives -/

/-- posixpath.isabs: a path is absolute when it begins with a slash. -/
def isabs (p : String) : Bool := strStartsWith p "/"

/-- One step of the component loop of CPython posixpath.normpath; the
accumulator holds the components built so far, in reverse. -/
def normStep (initial_slashes : Nat) (acc : List String) (comp : String) : List String :=
  if comp == "" || comp == "." then acc
  else if !(comp == "..") || (Nat.beq initial_slashes 0 && acc.isEmpty)
          || (acc.head? == some "..") then comp :: acc
  else
    match acc with
    | [] => []
    | _ :: t => t

/-- CPython posixpath.normpath: collapse slashes and dot segments, resolve
dot-dot segments textually, preserve one or exactly two leading slashes. -/
def normpath (p : String) : String :=
  if p == "" then "."
  else
    let initial_slashes : Nat :=
      if strStartsWith p "//" && !(strStartsWith p "///") then 2
      else if strStartsWith p "/" then 1
      else 0
    let comps := pySplit p '/'
    let newComps := (comps.foldl (normStep initial_slashes) []).reverse
    let joined := strJoin "/" newComps
    let out := String.mk (List.replicate initial_slashes '/') ++ joined
    if out == "" then "." else out

/-- posixpath.join restricted to two arguments, as used by abspath. -/
def pyJoin (a b : String) : String :=
  if strStartsWith b "/" then b
  else if a == "" || strEndsWith a "/" then a ++ b
  else a ++ "/" ++ b

/-- Index just past the last slash of a character list: Python
p.rfind(sep) + 1 with 0 when there is no slash. -/
def pastLastSlash : List Char → Nat
  | [] => 0
  | c :: cs =>
    let r := pastLastSlash cs
    if Nat.beq r 0 then (if charEq c '/' then 1 else 0)
    else r + 1

/-- posixpath.dirname: everything before the final slash, with trailing
slashes stripped unless the head is nothing but slashes. -/
def dirname (p : String) : String :=
  let cs := p.data
  let head := cs.take (pastLastSlash cs)
  if head.isEmpty || head.all (fun c => charEq c '/') then String.mk head
  else String.mk (rstripSlashes head)

/-- posixpath.expanduser for the tilde-slash literals used in the server
configuration; home stands for the HOME environment entry. -/
def expanduser (home : String) (p : String) : String :=
  if !(strStartsWith p "~") then p
  else
    let userhome := String.mk (rstripSlashes home.data)
    let res := userhome ++ String.mk (p.data.drop 1)
    if res == "" then "/" else res

/-! ## The operating-system view -/

/-- Possible outcomes of opening and reading a file as UTF-8 text. The last
constructor stands for any other exception (for instance reading a
directory or a decode failure) with its rendered message. -/
inductive FileOutcome where
  | ok (content : String)
  | notFound
  | permissionDenied
  | otherFault (msg : String)
deriving DecidableEq

/-- One entry of a directory as the operating system reports it: its name,
whether os.path.isdir holds of it, and its os.path.getsize byte size. -/
structure RawEntry where
  name : String
  isDir : Bool
  size : Nat
deriving DecidableEq

/-- Possible outcomes of os.listdir together with the per-entry stat data
the listing loop reads. -/
inductive DirOutcome where
  | ok (entries : List RawEntry)
  | notFound
  | permissionDenied
  | otherFault (msg : String)
deriving DecidableEq

/-- Possible outcomes of creating parent directories and writing a file. -/
inductive WriteOutcome where
  | ok
  | permissionDenied
deriving DecidableEq

/-- The ambient operating-system state a request executes against. The
current working directory is an oracle that may fail, as os.getcwd can. -/
structure FS where
  cwd : Except String String
  readFile : String → FileOutcome
  listDir : String → DirOutcome
  writeResult : String → String → WriteOutcome

/-- os.path.abspath: normpath of the path itself when absolute, otherwise
of the join with the current working directory; consulting the working
directory can fail, and only relative paths consult it. -/
def abspathE (fs : FS) (p : String) : Except String String :=
  if isabs p then Except.ok (normpath p)
  else
    match fs.cwd with
    | Except.error e => Except.error e
    | Except.ok cwd => Except.ok (normpath (pyJoin cwd p))

/-! ## The Path Guard -/

/-- The loop of is_safe_path over the configured roots: resolve each root
and test the resolved candidate with str.startswith; a failure while
resolving a root aborts the whole check as the surrounding try would. -/
def safeLoop (fs : FS) (resolved_path : String) : List String → Bool
  | [] => false
  | safe_path :: rest =>
    match abspathE fs safe_path with
    | Except.error _ => false
    | Except.ok safe_resolved =>
      if strStartsWith resolved_path safe_resolved then true
      else safeLoop fs resolved_path rest

/-- is_safe_path from the source: resolve the candidate with abspath, then
accept iff the resolved string starts with some resolved configured root;
any resolution failure yields false. -/
def is_safe_path (safe_paths : List String) (fs : FS) (path : String) : Bool :=
  match abspathE fs path with
  | Except.error _ => false
  | Except.ok resolved_path => safeLoop fs resolved_path safe_paths

/-- Non-empty path segments of a canonical path string. -/
def segmentsOf (p : String) : List String :=
  (pySplit p '/').filter (fun s => !(s == ""))

/-- Modelled from the spec: the Path Guard contract of section 4.1, which
the source does not implement — accept a candidate iff its canonical
resolution equals the canonical resolution of some configured root or has
it as a strict path-segment prefix, never by raw string prefix. -/
def is_safe_segmentwise (safe_paths : List String) (fs : FS) (path : String) : Bool :=
  match abspathE fs path with
  | Except.error _ => false
  | Except.ok resolved =>
    safe_paths.any (fun root =>
      match abspathE fs root with
      | Except.error _ => false
      | Except.ok rootResolved =>
        resolved == rootResolved ||
        (List.isPrefixOf (segmentsOf rootResolved) (segmentsOf resolved) &&
          Nat.blt (segmentsOf rootResolved).length (segmentsOf resolved).length))

/-- The safe_paths list built in the constructor; home stands for the HOME
directory os.path.expanduser consults. -/
def default_safe_paths (home : String) : List String :=
  ["demos/", "test/", "docs/", "/tmp/",
   expanduser home "~/Downloads/", expanduser home "~/Documents/"]

/-! ## Responses and requests -/

/-- One content block of a response; the server only emits text blocks. -/
structure ContentBlock where
  type : String
  text : String
deriving DecidableEq

/-- The error object of a response. -/
structure ErrorInfo where
  code : Int
  message : String
deriving DecidableEq

/-- The metadata object attached to the write-confirmation response. -/
structure MetadataInfo where
  requires_confirmation : Bool
  operation : String
  risk_level : String
deriving DecidableEq

/-- The schema of one named tool parameter. -/
structure PropertySchema where
  type : String
  description : String
deriving DecidableEq

/-- The input schema of a tool descriptor. -/
structure InputSchema where
  type : String
  properties : List (String × PropertySchema)
  required : List String
deriving DecidableEq

/-- One advertised tool. -/
structure ToolDescriptor where
  name : String
  description : String
  inputSchema : InputSchema
deriving DecidableEq

/-- A response dictionary, with one optional field per key the server ever
writes: content, metadata, error and tools. -/
structure Response where
  content : Option (List ContentBlock)
  metadata : Option MetadataInfo
  error : Option ErrorInfo
  tools : Option (List ToolDescriptor)
deriving DecidableEq

/-- A response carrying only an error object. -/
def errResp (code : Int) (message : String) : Response :=
  ⟨none, none, some ⟨code, message⟩, none⟩

/-- A response carrying only content blocks. -/
def contentResp (blocks : List ContentBlock) : Response :=
  ⟨some blocks, none, none, none⟩

/-- A filesystem side effect a handler could perform. The handlers in
scope perform none; the dead confirmed-write branch would perform these. -/
inductive Effect where
  | makedirs (dir : String)
  | fsWrite (path : String) (content : String)
deriving DecidableEq

/-- The arguments mapping of a tools/call request, as the handlers read
it: an optional string per key. -/
structure Args where
  path : Option String
  content : Option String
deriving DecidableEq

/-- The params mapping of a request. -/
structure Params where
  name : Option String
  arguments : Option Args
deriving DecidableEq

/-- An incoming request object. -/
structure Request where
  method : Option String
  params : Option Params
deriving DecidableEq

/-- Python str(x) of an optional string, as an f-string renders it. -/
def optStr : Option String → String
  | none => "None"
  | some s => s

/-! ## The tool catalog -/

/-- The fixed tool list built in the constructor and never mutated. -/
def tools : List ToolDescriptor :=
  [⟨"read_file", "Read contents of a file with path validation",
    ⟨"object", [("path", ⟨"string", "Path to the file to read"⟩)], ["path"]⟩⟩,
   ⟨"list_directory", "List contents of a directory",
    ⟨"object", [("path", ⟨"string", "Path to the directory to list"⟩)], ["path"]⟩⟩,
   ⟨"write_file", "Write content to a file (requires confirmation)",
    ⟨"object", [("path", ⟨"string", "Path where to write the file"⟩),
                ("content", ⟨"string", "Content to write to the file"⟩)],
     ["path", "content"]⟩⟩]

/-! ## Tool handlers -/

/-- read_file from the source. A result of Except.error stands for an
exception escaping the handler; FileNotFoundError and PermissionError are
caught inside it, exactly as in the source. -/
def read_file (safe_paths : List String) (fs : FS) (path : Option String) :
    Except String Response :=
  match path with
  | none => Except.ok (errResp (-32602) "Path is required")
  | some p =>
    if p == "" then Except.ok (errResp (-32602) "Path is required")
    else if !(is_safe_path safe_paths fs p) then
      Except.ok (errResp (-32603)
        ("Access denied: Path '" ++ p ++ "' is outside safe directories"))
    else
      match fs.readFile p with
      | FileOutcome.ok content =>
        Except.ok (contentResp [⟨"text", "Contents of " ++ p ++ ":\n\n" ++ content⟩])
      | FileOutcome.notFound =>
        Except.ok (errResp (-32603) ("File not found: " ++ p))
      | FileOutcome.permissionDenied =>
        Except.ok (errResp (-32603) ("Permission denied: " ++ p))
      | FileOutcome.otherFault msg => Except.error msg

/-- The dictionary the listing loop builds per entry: name, a type string
and a size that is zero for directories. -/
structure DirEntry where
  name : String
  type : String
  size : Nat
deriving DecidableEq

/-- The entry dictionary built from the operating-system view of one
directory member. -/
def mkEntry (r : RawEntry) : DirEntry :=
  ⟨r.name, if r.isDir then "directory" else "file", if r.isDir then 0 else r.size⟩

/-- Whether an entry is a file, the first component of the sort key. -/
def fileFlag (e : DirEntry) : Bool := e.type == "file"

/-- The sort-key order of the source: primary key is-file with directories
first, secondary key the name in ascending string order. -/
def entryLE (a b : DirEntry) : Bool :=
  (!(fileFlag a) && fileFlag b) || (fileFlag a == fileFlag b && strLE a.name b.name)

/-- Insertion of one entry into an already sorted run, keeping the new
entry before key-equal ones as a stable sort does. -/
def insertEntry (e : DirEntry) : List DirEntry → List DirEntry
  | [] => [e]
  | f :: fs => if entryLE e f then e :: f :: fs else f :: insertEntry e fs

/-- The sort entries.sort(key=lambda x: (x is-file, x name)) performs: a
stable sort by the pair key. -/
def sortEntries : List DirEntry → List DirEntry
  | [] => []
  | e :: es => insertEntry e (sortEntries es)

/-- One rendered line of the listing: an icon, the name and, for files
only, the size in bytes. -/
def renderEntry (e : DirEntry) : String :=
  let icon := if e.type == "directory" then "📁" else "📄"
  let size_str := if e.type == "file" then " (" ++ toString e.size ++ " bytes)" else ""
  icon ++ " " ++ e.name ++ size_str ++ "\n"

/-- The body of the listing text, accumulated line by line in order. -/
def renderEntries (l : List DirEntry) : String :=
  l.foldl (fun acc e => acc ++ renderEntry e) ""

/-- list_directory from the source. -/
def list_directory (safe_paths : List String) (fs : FS) (path : Option String) :
    Except String Response :=
  match path with
  | none => Except.ok (errResp (-32602) "Path is required")
  | some p =>
    if p == "" then Except.ok (errResp (-32602) "Path is required")
    else if !(is_safe_path safe_paths fs p) then
      Except.ok (errResp (-32603)
        ("Access denied: Path '" ++ p ++ "' is outside safe directories"))
    else
      match fs.listDir p with
      | DirOutcome.ok raw =>
        let sorted := sortEntries (raw.map mkEntry)
        Except.ok (contentResp
          [⟨"text", "Contents of directory " ++ p ++ ":\n\n" ++ renderEntries sorted⟩])
      | DirOutcome.notFound =>
        Except.ok (errResp (-32603) ("Directory not found: " ++ p))
      | DirOutcome.permissionDenied =>
        Except.ok (errResp (-32603) ("Permission denied: " ++ p))
      | DirOutcome.otherFault msg => Except.error msg

/-- The warning text of the write-confirmation response. -/
def writeWarning (p : String) (c : String) : String :=
  "⚠️ File write operation requires confirmation:\n" ++
  "Path: " ++ p ++ "\n" ++
  "Content length: " ++ toString c.length ++ " characters\n" ++
  "This operation would create/overwrite a file.\n" ++
  "Please confirm this action through the UI."

/-- write_file from the source, instrumented with the list of filesystem
effects it performs; the confirmed-write branch after the constant-true
confirmation flag is kept as in the source and is unreachable. -/
def write_file (safe_paths : List String) (fs : FS) (path content : Option String) :
    Response × List Effect :=
  match path, content with
  | none, _ => (errResp (-32602) "Path and content are required", [])
  | some _, none => (errResp (-32602) "Path and content are required", [])
  | some p, some c =>
    if p == "" then (errResp (-32602) "Path and content are required", [])
    else if !(is_safe_path safe_paths fs p) then
      (errResp (-32603)
        ("Access denied: Path '" ++ p ++ "' is outside safe directories"), [])
    else
      let confirmation_required := true
      if confirmation_required then
        (⟨some [⟨"text", writeWarning p c⟩],
          some ⟨true, "file_write", "medium"⟩, none, none⟩, [])
      else
        match fs.writeResult p c with
        | WriteOutcome.ok =>
          (contentResp
            [⟨"text", "✅ Successfully wrote " ++ toString c.length ++
              " characters to " ++ p⟩],
           [Effect.makedirs (dirname p), Effect.fsWrite p c])
        | WriteOutcome.permissionDenied =>
          (errResp (-32603) ("Permission denied: " ++ p), [Effect.makedirs (dirname p)])

/-! ## The dispatcher -/

/-- The try/except around tool dispatch: an escaped exception becomes an
error response with code -32603 and the rendered message. -/
def catchFaults (r : Except String (Response × List Effect)) : Response × List Effect :=
  match r with
  | Except.ok v => v
  | Except.error e => (errResp (-32603) ("Tool execution failed: " ++ e), [])

/-- call_tool from the source: route on the tool name, catch every fault
escaping a handler. -/
def call_tool (safe_paths : List String) (fs : FS) (tool_name : Option String)
    (arguments : Args) : Response × List Effect :=
  catchFaults
    (if tool_name == some "read_file" then
      (read_file safe_paths fs arguments.path).map (fun r => (r, ([] : List Effect)))
    else if tool_name == some "list_directory" then
      (list_directory safe_paths fs arguments.path).map (fun r => (r, ([] : List Effect)))
    else if tool_name == some "write_file" then
      Except.ok (write_file safe_paths fs arguments.path arguments.content)
    else
      Except.ok (errResp (-32602) ("Unknown tool: " ++ optStr tool_name), []))

/-- handle_request from the source: a fixed catalog for tools/list, tool
dispatch for tools/call, a method-not-found error otherwise. -/
def handle_request (safe_paths : List String) (fs : FS) (req : Request) :
    Response × List Effect :=
  let params := req.params.getD ⟨none, none⟩
  if req.method == some "tools/list" then
    (⟨none, none, none, some tools⟩, [])
  else if req.method == some "tools/call" then
    call_tool safe_paths fs params.name (params.arguments.getD ⟨none, none⟩)
  else
    (errResp (-32601) ("Method not found: " ++ optStr req.method), [])

/-! ## Concrete operating-system states used by closed evaluations -/

/-- An operating-system state with the given working directory, no
readable files and no listable directories. -/
def fsCwd (c : String) : FS :=
  ⟨Except.ok c, fun _ => FileOutcome.notFound, fun _ => DirOutcome.notFound,
   fun _ _ => WriteOutcome.ok⟩

/-- The configured roots with home directory /home/user. -/
def rootsU : List String := default_safe_paths "/home/user"

/-- A state whose working directory is /home/user. -/
def fsU : FS := fsCwd "/home/user"

/-- A state in which every file read succeeds with the text hello. -/
def fsHello : FS :=
  ⟨Except.ok "/home/user", fun _ => FileOutcome.ok "hello",
   fun _ => DirOutcome.notFound, fun _ _ => WriteOutcome.ok⟩

/-- A state in which every file read and every listing raises an
exception the handlers do not catch. -/
def fsBoom : FS :=
  ⟨Except.ok "/home/user", fun _ => FileOutcome.otherFault "boom",
   fun _ => DirOutcome.otherFault "boom", fun _ _ => WriteOutcome.ok⟩

/-- A state in which every directory lists a file b.txt, a directory
a_dir and a file c.txt, in that raw order. -/
def fsListed : FS :=
  ⟨Except.ok "/home/user", fun _ => FileOutcome.notFound,
   fun _ => DirOutcome.ok [⟨"b.txt", false, 3⟩, ⟨"a_dir", true, 0⟩, ⟨"c.txt", false, 5⟩],
   fun _ _ => WriteOutcome.ok⟩

/-- A state in which consulting the working directory fails. -/
def fsErr : FS :=
  ⟨Except.error "getcwd failed", fun _ => FileOutcome.notFound,
   fun _ => DirOutcome.notFound, fun _ _ => WriteOutcome.ok⟩

/-! ## Order facts about the sort key -/

/-- A boolean is false when assuming it true is absurd. -/
theorem bool_eq_false (b : Bool) (h : b = true → False) : b = false := by
  cases b
  · rfl
  · exact absurd rfl h

/-- The strict string order is asymmetric. -/
theorem charsLt_asymm : ∀ (a b : List Char),
    charsLt a b = true → charsLt b a = true → False := by
  intro a
  induction a with
  | nil =>
    intro b h1 h2
    cases b with
    | nil => simp [charsLt] at h1
    | cons y bs => simp [charsLt] at h2
  | cons x as ih =>
    intro b h1 h2
    cases b with
    | nil => simp [charsLt] at h1
    | cons y bs =>
      simp only [charsLt, charLt, charEq, Bool.or_eq_true, Bool.and_eq_true,
        Nat.blt_eq, Nat.beq_eq_true_eq] at h1 h2
      rcases h1 with h1 | ⟨h1e, h1r⟩ <;> rcases h2 with h2 | ⟨h2e, h2r⟩
      · omega
      · omega
      · omega
      · exact ih bs h1r h2r

/-- Cotransitivity of the strict string order: a chain through any third
string can be split. -/
theorem charsLt_cotrans : ∀ (c a b : List Char), charsLt c a = true →
    charsLt c b = true ∨ charsLt b a = true := by
  intro c
  induction c with
  | nil =>
    intro a b h
    cases a with
    | nil => simp [charsLt] at h
    | cons x as =>
      cases b with
      | nil => right; simp [charsLt]
      | cons y bs => left; simp [charsLt]
  | cons z cs ih =>
    intro a b h
    cases a with
    | nil => simp [charsLt] at h
    | cons x as =>
      cases b with
      | nil => right; simp [charsLt]
      | cons y bs =>
        simp only [charsLt, charLt, charEq, Bool.or_eq_true, Bool.and_eq_true,
          Nat.blt_eq, Nat.beq_eq_true_eq] at h ⊢
        rcases h with h | ⟨hzx, hrec⟩
        · rcases Nat.lt_or_ge z.toNat y.toNat with h1 | h1
          · exact Or.inl (Or.inl h1)
          · exact Or.inr (Or.inl (by omega))
        · rcases Nat.lt_trichotomy z.toNat y.toNat with h1 | h1 | h1
          · exact Or.inl (Or.inl h1)
          · rcases ih as bs hrec with h2 | h2
            · exact Or.inl (Or.inr ⟨h1, h2⟩)
            · exact Or.inr (Or.inr ⟨by omega, h2⟩)
          · exact Or.inr (Or.inl (by omega))

/-- The lax string order is total. -/
theorem strLE_total (a b : String) : strLE a b = true ∨ strLE b a = true := by
  unfold strLE strLt
  cases h : charsLt b.data a.data with
  | false => left; rfl
  | true =>
    right
    rw [bool_eq_false (charsLt a.data b.data) (fun h2 => charsLt_asymm _ _ h2 h)]
    rfl

/-- The lax string order is transitive. -/
theorem strLE_trans (a b c : String) (h1 : strLE a b = true) (h2 : strLE b c = true) :
    strLE a c = true := by
  unfold strLE strLt at h1 h2 ⊢
  rw [Bool.not_eq_true'] at h1 h2 ⊢
  refine bool_eq_false _ (fun h => ?_)
  rcases charsLt_cotrans c.data a.data b.data h with h3 | h3
  · rw [h2] at h3; exact Bool.false_ne_true h3
  · rw [h1] at h3; exact Bool.false_ne_true h3

/-- The sort-key order is total. -/
theorem entryLE_total (a b : DirEntry) : entryLE a b = true ∨ entryLE b a = true := by
  unfold entryLE
  cases hfa : fileFlag a <;> cases hfb : fileFlag b <;> simp [hfa, hfb] <;>
    exact strLE_total _ _

/-- The sort-key order is transitive. -/
theorem entryLE_trans (a b c : DirEntry) (h1 : entryLE a b = true)
    (h2 : entryLE b c = true) : entryLE a c = true := by
  unfold entryLE at h1 h2 ⊢
  cases hfa : fileFlag a <;> cases hfb : fileFlag b <;> cases hfc : fileFlag c <;>
    simp [hfa, hfb, hfc] at h1 h2 ⊢ <;>
    exact strLE_trans _ _ _ h1 h2

/-- The sort-key order implies the two facts the ordering claim states:
directories never follow files, and names ascend inside a kind. -/
theorem entryLE_imp (a b : DirEntry) (h : entryLE a b = true) :
    (fileFlag a = true → fileFlag b = true) ∧
    (fileFlag a = fileFlag b → strLE a.name b.name = true) := by
  unfold entryLE at h
  cases hfa : fileFlag a <;> cases hfb : fileFlag b <;>
    simp [hfa, hfb] at h ⊢ <;> try exact h

/-! ## The insertion sort is sorted -/

/-- Membership in an insertion result comes from the new element or the
original run. -/
theorem mem_insertEntry {e x : DirEntry} : ∀ {l : List DirEntry},
    x ∈ insertEntry e l → x = e ∨ x ∈ l := by
  intro l
  induction l with
  | nil =>
    intro h
    simp [insertEntry] at h
    exact Or.inl h
  | cons f fs ih =>
    intro h
    unfold insertEntry at h
    split at h
    · rcases List.mem_cons.mp h with h1 | h1
      · exact Or.inl h1
      · exact Or.inr h1
    · rcases List.mem_cons.mp h with h1 | h1
      · exact Or.inr (List.mem_cons.mpr (Or.inl h1))
      · rcases ih h1 with h2 | h2
        · exact Or.inl h2
        · exact Or.inr (List.mem_cons.mpr (Or.inr h2))

/-- Inserting into a run sorted by the key order keeps it sorted. -/
theorem pairwise_insertEntry {e : DirEntry} : ∀ {l : List DirEntry},
    l.Pairwise (fun a b => entryLE a b = true) →
    (insertEntry e l).Pairwise (fun a b => entryLE a b = true) := by
  intro l
  induction l with
  | nil => intro _; simp [insertEntry]
  | cons f fs ih =>
    intro hp
    rcases List.pairwise_cons.mp hp with ⟨hf, hfs⟩
    unfold insertEntry
    split
    · refine List.Pairwise.cons ?_ hp
      intro y hy
      rcases List.mem_cons.mp hy with he | hy2
      · rw [he]; assumption
      · exact entryLE_trans e f y (by assumption) (hf y hy2)
    · refine List.Pairwise.cons ?_ (ih hfs)
      intro y hy
      rcases mem_insertEntry hy with he | hy2
      · rw [he]
        rcases entryLE_total e f with h | h
        · exact absurd h (by assumption)
        · exact h
      · exact hf y hy2

/-- The whole sort produces a run sorted by the key order. -/
theorem sortEntries_pairwise : ∀ (l : List DirEntry),
    (sortEntries l).Pairwise (fun a b => entryLE a b = true) := by
  intro l
  induction l with
  | nil => simp [sortEntries]
  | cons e es ih => exact pairwise_insertEntry ih

/-! ## Single-arm responses -/

/-- A response populates exactly one arm: it carries content or an error,
never both, and an error response carries neither content nor metadata. -/
def oneArm (r : Response) : Prop :=
  (r.content.isSome = true ∨ r.error.isSome = true) ∧
  ¬(r.content.isSome = true ∧ r.error.isSome = true) ∧
  (r.error.isSome = true → r.content = none ∧ r.metadata = none)

/-- Error responses populate exactly one arm. -/
theorem oneArm_errResp (c : Int) (m : String) : oneArm (errResp c m) := by
  simp [oneArm, errResp]

/-- Content responses populate exactly one arm. -/
theorem oneArm_contentResp (bs : List ContentBlock) : oneArm (contentResp bs) := by
  simp [oneArm, contentResp]

/-- Content responses with metadata populate exactly one arm. -/
theorem oneArm_contentMeta (bs : List ContentBlock) (m : MetadataInfo) :
    oneArm (⟨some bs, some m, none, none⟩ : Response) := by
  simp [oneArm]

/-- Every result of the read_file handler populates exactly one arm. -/
theorem read_file_oneArm (roots : List String) (fs : FS) (p : Option String)
    (r : Response) (h : read_file roots fs p = Except.ok r) : oneArm r := by
  unfold read_file at h
  repeat' split at h
  all_goals
    first
      | (simp only [Except.ok.injEq] at h; subst h;
          first
            | exact oneArm_errResp _ _
            | exact oneArm_contentResp _)
      | simp at h

/-- Every result of the list_directory handler populates exactly one arm. -/
theorem list_directory_oneArm (roots : List String) (fs : FS) (p : Option String)
    (r : Response) (h : list_directory roots fs p = Except.ok r) : oneArm r := by
  unfold list_directory at h
  repeat' split at h
  all_goals
    first
      | (simp only [Except.ok.injEq] at h; subst h;
          first
            | exact oneArm_errResp _ _
            | exact oneArm_contentResp _)
      | simp at h

/-- Every result of the write_file handler populates exactly one arm. -/
theorem write_file_oneArm (roots : List String) (fs : FS) (p c : Option String) :
    oneArm (write_file roots fs p c).1 := by
  unfold write_file
  repeat' split
  all_goals
    first
      | exact oneArm_errResp _ _
      | exact oneArm_contentResp _
      | exact oneArm_contentMeta _ _

/-- Every response out of call_tool populates exactly one arm. -/
theorem call_tool_oneArm (roots : List String) (fs : FS) (tn : Option String)
    (args : Args) : oneArm (call_tool roots fs tn args).1 := by
  unfold call_tool
  by_cases h1 : (tn == some "read_file") = true
  · rw [if_pos h1]
    cases hrf : read_file roots fs args.path with
    | ok r =>
      simp only [Except.map, catchFaults]
      exact read_file_oneArm roots fs args.path r hrf
    | error e =>
      simp only [Except.map, catchFaults]
      exact oneArm_errResp _ _
  · rw [if_neg h1]
    by_cases h2 : (tn == some "list_directory") = true
    · rw [if_pos h2]
      cases hld : list_directory roots fs args.path with
      | ok r =>
        simp only [Except.map, catchFaults]
        exact list_directory_oneArm roots fs args.path r hld
      | error e =>
        simp only [Except.map, catchFaults]
        exact oneArm_errResp _ _
    · rw [if_neg h2]
      by_cases h3 : (tn == some "write_file") = true
      · rw [if_pos h3]
        exact write_file_oneArm roots fs args.path args.content
      · rw [if_neg h3]
        exact oneArm_errResp _ _

/-- The dispatcher responses of handle_request never carry content and
error together, and an error response carries neither content nor
metadata. -/
theorem handle_request_arms (roots : List String) (fs : FS) (req : Request) :
    ¬((handle_request roots fs req).1.content.isSome = true ∧
      (handle_request roots fs req).1.error.isSome = true) ∧
    ((handle_request roots fs req).1.error.isSome = true →
      (handle_request roots fs req).1.content = none ∧
      (handle_request roots fs req).1.metadata = none) := by
  unfold handle_request
  by_cases h1 : (req.method == some "tools/list") = true
  · rw [if_pos h1]; simp
  · rw [if_neg h1]
    by_cases h2 : (req.method == some "tools/call") = true
    · rw [if_pos h2]
      have h := call_tool_oneArm roots fs (req.params.getD ⟨none, none⟩).name
        ((req.params.getD ⟨none, none⟩).arguments.getD ⟨none, none⟩)
      exact ⟨h.2.1, h.2.2⟩
    · rw [if_neg h2]; simp [errResp]

/-! ## The claims -/

/-- C1: the claim requires is_safe_path to accept exactly canonical
segment-wise descendants of a configured root, so with the single root
/tmp/x the candidate /tmp/xyz must be rejected; the source compares with a
raw string prefix and accepts it, diverging from the segment-wise contract
at this input. -/
theorem c1_is_safe_path_prefix_confusion :
    is_safe_path ["/tmp/x"] fsU "/tmp/xyz" = true ∧
    is_safe_segmentwise ["/tmp/x"] fsU "/tmp/xyz" = false := by
  constructor
  · decide
  · decide

/-- C2: whenever path and content pass the argument check and the Path
Guard, write_file performs no filesystem effect and returns the pending
content block with metadata requires_confirmation true, operation
file_write and risk_level medium. -/
theorem c2_write_file_requires_confirmation (roots : List String) (fs : FS)
    (p c : String) (hp : p ≠ "") (hsafe : is_safe_path roots fs p = true) :
    write_file roots fs (some p) (some c) =
      (⟨some [⟨"text", writeWarning p c⟩], some ⟨true, "file_write", "medium"⟩,
        none, none⟩, ([] : List Effect)) := by
  have hp2 : (p == "") = false := beq_eq_false_iff_ne.mpr hp
  simp [write_file, hp2, hsafe]

/-- Witness for C2 at the concrete request write_file(/tmp/a, empty). -/
theorem c2_witness_tmp_write :
    write_file rootsU fsU (some "/tmp/a") (some "") =
      (⟨some [⟨"text", writeWarning "/tmp/a" ""⟩],
        some ⟨true, "file_write", "medium"⟩, none, none⟩, ([] : List Effect)) :=
  c2_write_file_requires_confirmation rootsU fsU "/tmp/a" "" (by decide) (by decide)

/-- C3: call_tool is total; an unknown tool name yields error -32602, and
a fault escaping the read_file or list_directory handler is caught and
converted into error -32603 whose message carries the fault description. -/
theorem c3_call_tool_error_mapping (roots : List String) (fs : FS)
    (tool_name : Option String) (args : Args) :
    (tool_name ≠ some "read_file" → tool_name ≠ some "list_directory" →
      tool_name ≠ some "write_file" →
      call_tool roots fs tool_name args =
        (errResp (-32602) ("Unknown tool: " ++ optStr tool_name), [])) ∧
    (∀ e, read_file roots fs args.path = Except.error e →
      call_tool roots fs (some "read_file") args =
        (errResp (-32603) ("Tool execution failed: " ++ e), [])) ∧
    (∀ e, list_directory roots fs args.path = Except.error e →
      call_tool roots fs (some "list_directory") args =
        (errResp (-32603) ("Tool execution failed: " ++ e), [])) := by
  refine ⟨?_, ?_, ?_⟩
  · intro h1 h2 h3
    unfold call_tool
    rw [if_neg (fun hc => h1 (eq_of_beq hc)), if_neg (fun hc => h2 (eq_of_beq hc)),
      if_neg (fun hc => h3 (eq_of_beq hc))]
    rfl
  · intro e he
    unfold call_tool
    rw [if_pos (by rfl), he]
    rfl
  · intro e he
    unfold call_tool
    rw [if_neg (by decide), if_pos (by rfl), he]
    rfl

/-- Witness for C3 at a bogus tool name and at handlers whose filesystem
calls raise an uncaught fault. -/
theorem c3_witness_dispatch :
    call_tool rootsU fsU (some "bogus_tool") ⟨none, none⟩ =
      (errResp (-32602) ("Unknown tool: " ++ optStr (some "bogus_tool")), []) ∧
    call_tool rootsU fsBoom (some "read_file") ⟨some "/tmp/f", none⟩ =
      (errResp (-32603) ("Tool execution failed: " ++ "boom"), []) ∧
    call_tool rootsU fsBoom (some "list_directory") ⟨some "/tmp/f", none⟩ =
      (errResp (-32603) ("Tool execution failed: " ++ "boom"), []) :=
  ⟨(c3_call_tool_error_mapping rootsU fsU (some "bogus_tool") ⟨none, none⟩).1
      (by decide) (by decide) (by decide),
   (c3_call_tool_error_mapping rootsU fsBoom (some "read_file")
      ⟨some "/tmp/f", none⟩).2.1 "boom" rfl,
   (c3_call_tool_error_mapping rootsU fsBoom (some "list_directory")
      ⟨some "/tmp/f", none⟩).2.2 "boom" rfl⟩

/-- C4: every response produced by the dispatcher and the tool handlers
populates exactly one arm — content, optionally with metadata, or error,
never both — and every error path leaves content and metadata absent;
handle_request responses likewise never mix the arms. -/
theorem c4_dispatcher_single_arm (roots : List String) (fs : FS)
    (tool_name : Option String) (args : Args) (req : Request) :
    oneArm (call_tool roots fs tool_name args).1 ∧
    ¬((handle_request roots fs req).1.content.isSome = true ∧
      (handle_request roots fs req).1.error.isSome = true) ∧
    ((handle_request roots fs req).1.error.isSome = true →
      (handle_request roots fs req).1.content = none ∧
      (handle_request roots fs req).1.metadata = none) :=
  ⟨call_tool_oneArm roots fs tool_name args,
   (handle_request_arms roots fs req).1,
   (handle_request_arms roots fs req).2⟩

/-- Witness for C4 at a concrete call and a concrete request. -/
theorem c4_witness_single_arm :
    oneArm (call_tool rootsU fsU (some "bogus_tool") ⟨none, none⟩).1 ∧
    ¬((handle_request rootsU fsU ⟨some "tools/list", none⟩).1.content.isSome = true ∧
      (handle_request rootsU fsU ⟨some "tools/list", none⟩).1.error.isSome = true) ∧
    ((handle_request rootsU fsU ⟨some "tools/list", none⟩).1.error.isSome = true →
      (handle_request rootsU fsU ⟨some "tools/list", none⟩).1.content = none ∧
      (handle_request rootsU fsU ⟨some "tools/list", none⟩).1.metadata = none) :=
  c4_dispatcher_single_arm rootsU fsU (some "bogus_tool") ⟨none, none⟩
    ⟨some "tools/list", none⟩

/-- C5: read_file answers a missing or empty path with error -32602 and
the text Path is required; a safe path whose file is absent with error
-32603 whose message carries file-not-found wording and the original path;
and a successful read with one text content block holding the header, a
blank line and the file contents. -/
theorem c5_read_file_contract (roots : List String) (fs : FS) (p : String) :
    read_file roots fs none = Except.ok (errResp (-32602) "Path is required") ∧
    read_file roots fs (some "") = Except.ok (errResp (-32602) "Path is required") ∧
    (p ≠ "" → is_safe_path roots fs p = true → fs.readFile p = FileOutcome.notFound →
      read_file roots fs (some p) =
        Except.ok (errResp (-32603) ("File not found: " ++ p))) ∧
    (∀ content, p ≠ "" → is_safe_path roots fs p = true →
      fs.readFile p = FileOutcome.ok content →
      read_file roots fs (some p) =
        Except.ok (contentResp [⟨"text", "Contents of " ++ p ++ ":\n\n" ++ content⟩])) := by
  refine ⟨rfl, by simp [read_file], ?_, ?_⟩
  · intro hp hsafe hread
    have hp2 : (p == "") = false := beq_eq_false_iff_ne.mpr hp
    simp [read_file, hp2, hsafe, hread]
  · intro content hp hsafe hread
    have hp2 : (p == "") = false := beq_eq_false_iff_ne.mpr hp
    simp [read_file, hp2, hsafe, hread]

/-- Witness for C5 at the safe path /tmp/f, once absent and once holding
the text hello. -/
theorem c5_witness_read_file :
    read_file rootsU fsU (some "/tmp/f") =
      Except.ok (errResp (-32603) ("File not found: " ++ "/tmp/f")) ∧
    read_file rootsU fsHello (some "/tmp/f") =
      Except.ok (contentResp [⟨"text", "Contents of " ++ "/tmp/f" ++ ":\n\n" ++ "hello"⟩]) :=
  ⟨(c5_read_file_contract rootsU fsU "/tmp/f").2.2.1 (by decide) (by decide) rfl,
   (c5_read_file_contract rootsU fsHello "/tmp/f").2.2.2 "hello" (by decide)
      (by decide) rfl⟩

/-- C6: the listing a successful list_directory renders is ordered with
every directory before every file and each of the two groups ascending
alphabetically, and on the entries b.txt, a_dir, c.txt the order is a_dir,
b.txt, c.txt. -/
theorem c6_list_directory_sorted (l : List DirEntry) (roots : List String)
    (fs : FS) (p : String) (raw : List RawEntry) :
    ((sortEntries l).Pairwise (fun a b =>
      (fileFlag a = true → fileFlag b = true) ∧
      (fileFlag a = fileFlag b → strLE a.name b.name = true))) ∧
    (p ≠ "" → is_safe_path roots fs p = true → fs.listDir p = DirOutcome.ok raw →
      list_directory roots fs (some p) =
        Except.ok (contentResp [⟨"text", "Contents of directory " ++ p ++ ":\n\n" ++
          renderEntries (sortEntries (raw.map mkEntry))⟩])) ∧
    sortEntries [⟨"b.txt", "file", 3⟩, ⟨"a_dir", "directory", 0⟩, ⟨"c.txt", "file", 5⟩] =
      [⟨"a_dir", "directory", 0⟩, ⟨"b.txt", "file", 3⟩, ⟨"c.txt", "file", 5⟩] := by
  refine ⟨(sortEntries_pairwise l).imp (fun h => entryLE_imp _ _ h), ?_, by decide⟩
  intro hp hsafe hld
  have hp2 : (p == "") = false := beq_eq_false_iff_ne.mpr hp
  simp [list_directory, hp2, hsafe, hld]

/-- Witness for C6 at a directory listing b.txt, a_dir and c.txt. -/
theorem c6_witness_listing :
    list_directory rootsU fsListed (some "/tmp/d") =
      Except.ok (contentResp [⟨"text", "Contents of directory " ++ "/tmp/d" ++ ":\n\n" ++
        renderEntries (sortEntries
          (([⟨"b.txt", false, 3⟩, ⟨"a_dir", true, 0⟩, ⟨"c.txt", false, 5⟩] :
            List RawEntry).map mkEntry))⟩]) :=
  (c6_list_directory_sorted [] rootsU fsListed "/tmp/d"
    [⟨"b.txt", false, 3⟩, ⟨"a_dir", true, 0⟩, ⟨"c.txt", false, 5⟩]).2.1
    (by decide) (by decide) rfl

/-- C7: a tools/list request always succeeds with the fixed catalog of
exactly three descriptors named read_file, list_directory and write_file,
independent of the ambient state and of the rest of the request. -/
theorem c7_tools_list_fixed (roots : List String) (fs : FS) (req : Request)
    (h : req.method = some "tools/list") :
    handle_request roots fs req = (⟨none, none, none, some tools⟩, []) ∧
    tools.length = 3 ∧
    tools.map ToolDescriptor.name = ["read_file", "list_directory", "write_file"] := by
  refine ⟨?_, rfl, rfl⟩
  simp [handle_request, h]

/-- Witness for C7 at a concrete tools/list request. -/
theorem c7_witness_tools_list :
    handle_request rootsU fsU ⟨some "tools/list", none⟩ =
      (⟨none, none, none, some tools⟩, []) ∧
    tools.length = 3 ∧
    tools.map ToolDescriptor.name = ["read_file", "list_directory", "write_file"] :=
  c7_tools_list_fixed rootsU fsU ⟨some "tools/list", none⟩ rfl

/-- C8: is_safe_path is total by construction, and whenever resolution of
the candidate path fails it returns false, never safe-by-default. -/
theorem c8_unresolvable_paths_unsafe (roots : List String) (fs : FS)
    (path e : String) (h : abspathE fs path = Except.error e) :
    is_safe_path roots fs path = false := by
  unfold is_safe_path
  rw [h]

/-- Witness for C8 at a relative path in a state whose working directory
cannot be read. -/
theorem c8_witness_unresolvable :
    abspathE fsErr "demos/x" = Except.error "getcwd failed" ∧
    is_safe_path rootsU fsErr "demos/x" = false :=
  ⟨rfl, c8_unresolvable_paths_unsafe rootsU fsErr "demos/x" "getcwd failed" rfl⟩

/-- C9: the guard verdict depends on the working directory: with the
configured roots of the constructor, the same absolute path string is
accepted when the working directory is the home directory and rejected
when it is elsewhere, because the relative roots resolve differently. -/
theorem c9_cwd_dependence :
    is_safe_path (default_safe_paths "/home/u") (fsCwd "/home/u")
      "/home/u/demos/a.txt" = true ∧
    is_safe_path (default_safe_paths "/home/u") (fsCwd "/srv")
      "/home/u/demos/a.txt" = false := by
  constructor
  · decide
  · decide

/-- C10: each handler rejects an absent path and an empty path
identically with error -32602, independently of the configured roots and
of the ambient state, so the guard is never consulted and the caller
cannot tell the two cases apart. -/
theorem c10_falsy_path_identical (roots : List String) (fs : FS) (c : Option String) :
    read_file roots fs none = Except.ok (errResp (-32602) "Path is required") ∧
    read_file roots fs (some "") = Except.ok (errResp (-32602) "Path is required") ∧
    list_directory roots fs none = Except.ok (errResp (-32602) "Path is required") ∧
    list_directory roots fs (some "") = Except.ok (errResp (-32602) "Path is required") ∧
    write_file roots fs none c = (errResp (-32602) "Path and content are required", []) ∧
    write_file roots fs (some "") c =
      (errResp (-32602) "Path and content are required", []) := by
  refine ⟨rfl, by simp [read_file], rfl, by simp [list_directory], ?_, ?_⟩
  · cases c <;> rfl
  · cases c <;> simp [write_file]

end FsServer
